import Mathlib

/-!
Shallow embedding of `src/c/main.c` from jimdiroffii/ip-protocol-from-scratch:
the RFC 1071 checksum engine (`compute_checksum`), the IPv4/ICMP wire
encodings built in `main`, and the datagram construction sequence.
Bytes are `Nat` values; 16-bit and 32-bit machine integers are `Nat` with
explicit `% 2^w` where overflow matters.  Multi-byte fields are kept in
network byte order (big-endian) exactly as they appear on the wire: the C
code stores them with `htons`/`htonl` and asserts against `htons`-converted
constants, so the wire-level big-endian value is the value the tests pin down.
-/

-- Layer 4 protocol identifiers (enum ip_protocol in main.c)
def IP_PROTO_ICMP : Nat := 1
def IP_PROTO_TCP : Nat := 6
def IP_PROTO_UDP : Nat := 17

-- ICMP message identifiers (enum icmp_message_type in main.c)
def ECHO_REPLY : Nat := 0
def ECHO : Nat := 8

/-- The IPv4 header struct from main.c (packed, 20 bytes on the wire).
Field values are the logical (host-order) field contents; the wire layout
is produced by `encode_ipv4_header`. -/
structure ipv4_header where
  version_ihl : Nat
  type_of_service : Nat
  total_length : Nat
  identification : Nat
  flags_frag_offset : Nat
  time_to_live : Nat
  protocol : Nat
  header_checksum : Nat
  src_addr : Nat
  dst_addr : Nat
deriving DecidableEq, Repr

/-- `(version << 4) | ihl` on a uint8, as in main.c line 157. -/
def pack_version_ihl (version ihl : Nat) : Nat :=
  ((version <<< 4) ||| ihl) % 256

/-- Big-endian bytes of a 16-bit value (htons storage on the wire). -/
def be16 (x : Nat) : List Nat := [x / 256 % 256, x % 256]

/-- Big-endian bytes of a 32-bit value (htonl storage on the wire). -/
def be32 (x : Nat) : List Nat :=
  [x / 16777216 % 256, x / 65536 % 256, x / 256 % 256, x % 256]

/-- The 20 wire bytes of the packed `ipv4_header` struct: each field at its
asserted offset (main.c tests 1 and 2), multi-byte fields big-endian. -/
def encode_ipv4_header (h : ipv4_header) : List Nat :=
  [h.version_ihl % 256, h.type_of_service % 256,
   h.total_length / 256 % 256, h.total_length % 256,
   h.identification / 256 % 256, h.identification % 256,
   h.flags_frag_offset / 256 % 256, h.flags_frag_offset % 256,
   h.time_to_live % 256, h.protocol % 256,
   h.header_checksum / 256 % 256, h.header_checksum % 256,
   h.src_addr / 16777216 % 256, h.src_addr / 65536 % 256,
   h.src_addr / 256 % 256, h.src_addr % 256,
   h.dst_addr / 16777216 % 256, h.dst_addr / 65536 % 256,
   h.dst_addr / 256 % 256, h.dst_addr % 256]

/-- The byte buffer seen as 16-bit network-order words, as the
`while (length > 1)` loop of `compute_checksum` walks it two bytes at a
time; a final odd byte is the high byte of one extra word whose low byte
is zero (main.c lines 95-101, logical padding only). -/
def toWords : List Nat → List Nat
  | [] => []
  | [b] => [b * 256]
  | b1 :: b2 :: rest => (b1 * 256 + b2) :: toWords rest

/-- The uint32 accumulator of `compute_checksum`: words are added one by
one with 32-bit wraparound (main.c line 90). -/
def sum32 (words : List Nat) : Nat :=
  words.foldl (fun s w => (s + w) % 4294967296) 0

/-- One iteration count bound: the carry-fold loop strictly decreases the
accumulator, so `fuel = s` steps always suffice; `fold_carries_aux` is the
loop `while (sum >> 16) sum = (sum & 0xFFFF) + (sum >> 16)` (main.c lines
108-111), with `sum >> 16 = sum / 65536` and `sum & 0xFFFF = sum % 65536`. -/
def fold_carries_aux : Nat → Nat → Nat
  | 0, s => s
  | fuel + 1, s =>
      if s / 65536 = 0 then s
      else fold_carries_aux fuel (s % 65536 + s / 65536)

/-- The carry-fold loop of `compute_checksum`, run to completion. -/
def fold_carries (s : Nat) : Nat := fold_carries_aux s s

/-- `compute_checksum` from main.c lines 81-116: sum the 16-bit words into
a 32-bit accumulator, fold the carries, return the bitwise complement of
the low 16 bits (for a value `s ≤ 0xFFFF` the truncated `~s` is
`0xFFFF - s`). -/
def compute_checksum (data : List Nat) : Nat :=
  65535 - fold_carries (sum32 (toWords data))

/-- The 4-byte ICMP header followed by the 4-byte echo extension and the
payload, as laid out in the packet buffer at offset 20 (main.c lines
366-449): type, code, big-endian checksum, big-endian identifier and
sequence, then payload bytes. -/
def encode_icmp_echo (ty code ck ident seq : Nat) (payload : List Nat) : List Nat :=
  [ty % 256, code % 256] ++ be16 ck ++ be16 ident ++ be16 seq ++ payload

/-- The IPv4 header the builder fills in before checksumming (main.c lines
311-334 and 451-453): version 4, ihl 5, tos 0, identification 0xBEEF,
no flags, ttl 64, protocol ICMP, checksum field zeroed,
total_length = 20 + 4 + 4 + payload length. -/
def build_ip0 (src dst plen : Nat) : ipv4_header :=
  { version_ihl := pack_version_ihl 4 5
    type_of_service := 0
    total_length := 20 + 4 + 4 + plen
    identification := 0xBEEF
    flags_frag_offset := 0
    time_to_live := 64
    protocol := IP_PROTO_ICMP
    header_checksum := 0
    src_addr := src
    dst_addr := dst }

/-- The same header with its checksum computed over the 20 header bytes,
the checksum field having been zeroed first (main.c lines 453-454). -/
def build_ip (src dst plen : Nat) : ipv4_header :=
  { build_ip0 src dst plen with
      header_checksum := compute_checksum (encode_ipv4_header (build_ip0 src dst plen)) }

/-- The full Echo Request datagram built by main.c (final state after lines
451-459, generalized over the caller-supplied fields as in the design):
IPv4 header, then ICMP header type ECHO code 0 whose checksum is computed
over every byte from offset 20 to the end with the checksum field zeroed
first, then identifier, sequence and payload. -/
def build_echo_request (src dst ident seq : Nat) (payload : List Nat) : List Nat :=
  encode_ipv4_header (build_ip src dst payload.length) ++
    encode_icmp_echo ECHO 0
      (compute_checksum (encode_icmp_echo ECHO 0 0 ident seq payload))
      ident seq payload

-- Field accessors reading the wire bytes back at their fixed offsets.
def get_header_length (d : List Nat) : Nat := d.getD 0 0 % 16
def get_total_length (d : List Nat) : Nat := d.getD 2 0 * 256 + d.getD 3 0
def get_header_checksum (d : List Nat) : Nat := d.getD 10 0 * 256 + d.getD 11 0
def get_icmp_checksum (d : List Nat) : Nat := d.getD 22 0 * 256 + d.getD 23 0

/-- The reference IPv4 header of main.c lines 138-266: version 4, ihl 5,
tos 0, total_length 20, identification 0xBEEF, no flags/fragment offset,
ttl 64, protocol ICMP, checksum field zeroed, source and destination
127.0.0.1. -/
def reference_header : ipv4_header :=
  { version_ihl := pack_version_ihl 4 5
    type_of_service := 0
    total_length := 20
    identification := 0xBEEF
    flags_frag_offset := 0
    time_to_live := 64
    protocol := IP_PROTO_ICMP
    header_checksum := 0
    src_addr := 0x7F000001
    dst_addr := 0x7F000001 }

/-- The reference header after the 4-byte ICMP header is encapsulated:
total_length updated to 24 and the checksum field zeroed for
recomputation (main.c lines 384-386). -/
def reference_header_24 : ipv4_header :=
  { reference_header with total_length := 24 }

/-- Codec failure kind from the design (repository phase documents): a
decode attempted on a buffer too short for the declared structure. -/
inductive codec_error where
  | MalformedHeader : codec_error
deriving DecidableEq, Repr

/-- The ICMP header struct from main.c (packed, 4 bytes on the wire). -/
structure icmp_header where
  icmp_type : Nat
  code : Nat
  checksum : Nat
deriving DecidableEq, Repr

/-- Modelled from the spec: the Header Codec decode of an IPv4 header
(section 4.2), missing from src/ (the repository only encodes).  Reads each
field at its fixed offset, big-endian for multi-byte fields, and rejects a
buffer shorter than 20 bytes with MalformedHeader. -/
def decode_ipv4_header (buf : List Nat) : Except codec_error ipv4_header :=
  if buf.length < 20 then .error .MalformedHeader
  else .ok
    { version_ihl := buf.getD 0 0
      type_of_service := buf.getD 1 0
      total_length := buf.getD 2 0 * 256 + buf.getD 3 0
      identification := buf.getD 4 0 * 256 + buf.getD 5 0
      flags_frag_offset := buf.getD 6 0 * 256 + buf.getD 7 0
      time_to_live := buf.getD 8 0
      protocol := buf.getD 9 0
      header_checksum := buf.getD 10 0 * 256 + buf.getD 11 0
      src_addr := buf.getD 12 0 * 16777216 + buf.getD 13 0 * 65536 +
        buf.getD 14 0 * 256 + buf.getD 15 0
      dst_addr := buf.getD 16 0 * 16777216 + buf.getD 17 0 * 65536 +
        buf.getD 18 0 * 256 + buf.getD 19 0 }

/-- Modelled from the spec: the Header Codec decode of an ICMP header
(section 4.2), missing from src/.  Rejects a buffer shorter than 4 bytes
with MalformedHeader. -/
def decode_icmp_header (buf : List Nat) : Except codec_error icmp_header :=
  if buf.length < 4 then .error .MalformedHeader
  else .ok
    { icmp_type := buf.getD 0 0
      code := buf.getD 1 0
      checksum := buf.getD 2 0 * 256 + buf.getD 3 0 }

/-- Outcome of one step of the Transport Driver matching predicate. -/
inductive transport_match where
  | discard : transport_match
  | matched : List Nat → transport_match
deriving DecidableEq, Repr

/-- Modelled from the spec: the Transport Driver matching predicate
(section 4.4), missing from src/ (network I/O is planned in the phase
documents but not implemented).  Per received datagram: decode the IPv4
header (too short means undecodable, discard and keep listening); if
protocol is not ICMP, discard; decode the ICMP header at offset 20; if
type is ECHO, discard (the host's own looped-back request); if type is
ECHO_REPLY, compare identifier and sequence at offsets 24-27 with the
original request's values and on a match extract the trailing payload,
length total_length - 28, from offset 28; otherwise discard. -/
def match_step (reqIdent reqSeq : Nat) (d : List Nat) : transport_match :=
  if d.length < 20 then .discard
  else if d.getD 9 0 ≠ IP_PROTO_ICMP then .discard
  else if d.length < 24 then .discard
  else if d.getD 20 0 = ECHO then .discard
  else if d.getD 20 0 = ECHO_REPLY then
    if d.length < 28 then .discard
    else if d.getD 24 0 * 256 + d.getD 25 0 = reqIdent ∧
        d.getD 26 0 * 256 + d.getD 27 0 = reqSeq then
      .matched ((d.drop 28).take (get_total_length d - 28))
    else .discard
  else .discard

/-- A synthetic Echo Reply carrying the given identifier and sequence and
the payload HELLO, in the exact wire layout of the built request with the
ICMP type set to ECHO_REPLY. -/
def synthetic_reply (ident seq : Nat) : List Nat :=
  encode_ipv4_header { reference_header with total_length := 33 } ++
    encode_icmp_echo ECHO_REPLY 0 0 ident seq [72, 69, 76, 76, 79]

/-! ## Helper lemmas about the carry-fold loop -/

lemma fold_carries_aux_le (fuel s : Nat) (h : s ≤ fuel) :
    fold_carries_aux fuel s ≤ 65535 := by
  induction fuel generalizing s with
  | zero =>
    have : s = 0 := Nat.le_zero.mp h
    simp [fold_carries_aux, this]
  | succ n ih =>
    rw [fold_carries_aux]
    by_cases h0 : s / 65536 = 0
    · simp only [h0, if_true]
      omega
    · simp only [h0, if_false]
      exact ih _ (by omega)

lemma fold_carries_aux_mod (fuel s : Nat) (h : s ≤ fuel) :
    fold_carries_aux fuel s % 65535 = s % 65535 := by
  induction fuel generalizing s with
  | zero =>
    have : s = 0 := Nat.le_zero.mp h
    simp [fold_carries_aux, this]
  | succ n ih =>
    rw [fold_carries_aux]
    by_cases h0 : s / 65536 = 0
    · simp [h0]
    · simp only [h0, if_false]
      rw [ih _ (by omega)]
      omega

lemma fold_carries_aux_pos (fuel s : Nat) (h : s ≤ fuel) (hs : 0 < s) :
    0 < fold_carries_aux fuel s := by
  induction fuel generalizing s with
  | zero => omega
  | succ n ih =>
    rw [fold_carries_aux]
    by_cases h0 : s / 65536 = 0
    · simpa [h0] using hs
    · simp only [h0, if_false]
      exact ih _ (by omega) (by omega)

lemma fold_carries_le (s : Nat) : fold_carries s ≤ 65535 :=
  fold_carries_aux_le s s (Nat.le_refl s)

lemma fold_carries_mod (s : Nat) : fold_carries s % 65535 = s % 65535 :=
  fold_carries_aux_mod s s (Nat.le_refl s)

lemma fold_carries_pos (s : Nat) (hs : 0 < s) : 0 < fold_carries s :=
  fold_carries_aux_pos s s (Nat.le_refl s) hs

lemma fold_carries_eq_65535 (s : Nat) (hpos : 0 < s) (hmod : s % 65535 = 0) :
    fold_carries s = 65535 := by
  have h1 := fold_carries_le s
  have h2 := fold_carries_mod s
  have h3 := fold_carries_pos s hpos
  omega

lemma fold_carries_aux_fuel (fuel fuel' s : Nat) (h : s ≤ fuel) (h' : s ≤ fuel') :
    fold_carries_aux fuel s = fold_carries_aux fuel' s := by
  induction fuel generalizing s fuel' with
  | zero =>
    have hs : s = 0 := by omega
    subst hs
    cases fuel' with
    | zero => rfl
    | succ k => simp [fold_carries_aux]
  | succ n ih =>
    cases fuel' with
    | zero =>
      have hs : s = 0 := by omega
      subst hs
      simp [fold_carries_aux]
    | succ k =>
      rw [fold_carries_aux, fold_carries_aux]
      by_cases h0 : s / 65536 = 0
      · simp [h0]
      · simp only [h0, if_false]
        exact ih _ _ (by omega) (by omega)

lemma compute_checksum_le (l : List Nat) : compute_checksum l ≤ 65535 := by
  unfold compute_checksum
  exact Nat.sub_le _ _

lemma getD_take (l : List Nat) (n i : Nat) (h : i < n) :
    (l.take n).getD i 0 = l.getD i 0 := by
  induction l generalizing n i with
  | nil => simp
  | cons x rest ih =>
    cases n with
    | zero => omega
    | succ m =>
      cases i with
      | zero => simp [List.take]
      | succ j =>
        simp only [List.take, List.getD_cons_succ]
        exact ih m j (by omega)

/-! ## Helper lemmas about the accumulator and the word view -/

lemma sum32_go (w : List Nat) (a : Nat) (ha : a < 4294967296) :
    w.foldl (fun s x => (s + x) % 4294967296) a = (a + w.sum) % 4294967296 := by
  induction w generalizing a with
  | nil => simp [Nat.mod_eq_of_lt ha]
  | cons x rest ih =>
    rw [List.foldl_cons, ih _ (Nat.mod_lt _ (by omega)), List.sum_cons,
      Nat.mod_add_mod]
    ring_nf

lemma sum32_eq (w : List Nat) : sum32 w = w.sum % 4294967296 := by
  simpa using sum32_go w 0 (by omega)

lemma toWords_append_zero (l : List Nat) (h : l.length % 2 = 1) :
    toWords (l ++ [0]) = toWords l := by
  induction l using toWords.induct with
  | case1 => simp at h
  | case2 b => simp [toWords]
  | case3 b1 b2 rest ih =>
    simp only [List.cons_append, toWords, List.append_eq]
    rw [ih]
    simp only [List.length_cons] at h
    omega

lemma toWords_set_sum (a b : Nat) :
    ∀ (i : Nat) (l : List Nat), 2 * i + 1 < l.length →
      l.getD (2 * i) 0 = 0 → l.getD (2 * i + 1) 0 = 0 →
      (toWords ((l.set (2 * i) a).set (2 * i + 1) b)).sum =
        (toWords l).sum + (a * 256 + b) := by
  intro i
  induction i with
  | zero =>
    intro l hlen h0 h1
    match l, hlen with
    | x :: y :: rest, _ =>
      have hx : x = 0 := h0
      have hy : y = 0 := h1
      subst hx
      subst hy
      have hset : ((0 :: 0 :: rest).set (2 * 0) a).set (2 * 0 + 1) b
          = a :: b :: rest := rfl
      rw [hset]
      simp only [toWords, List.sum_cons]
      omega
  | succ n ih =>
    intro l hlen h0 h1
    match l, hlen with
    | x :: y :: rest, hlen =>
      have e2 : 2 * (n + 1) = 2 * n + 1 + 1 := by omega
      rw [e2] at h0 h1 hlen ⊢
      simp only [List.set_cons_succ, List.getD_cons_succ] at h0 h1 ⊢
      have hlen' : 2 * n + 1 < rest.length := by
        simp only [List.length_cons] at hlen
        omega
      simp only [toWords, List.sum_cons]
      rw [ih rest hlen' h0 h1]
      omega


/-! ## Claim theorems -/

/-- C1: for the 6-byte input [0xFF,0x00,0x01,0xFF,0x00,0x02], the checksum
function (sum 16-bit big-endian words into a 32-bit accumulator, fold the
carries until none remain, complement the low 16 bits) returns exactly
0xFEFD. -/
theorem checksum_known_vector :
    compute_checksum [0xFF, 0x00, 0x01, 0xFF, 0x00, 0x02] = 0xFEFD := by
  decide

/-- C2: for every odd-length input the checksum treats the final byte as
the high byte of one extra 16-bit word with a zero low byte (so the result
equals the checksum of the buffer with a zero byte appended, the buffer
itself never being modified), and in particular
checksum([0xFF,0x00,0x01,0xFF,0x48]) = 0xB6FF. -/
theorem checksum_odd_padding :
    (∀ l : List Nat, l.length % 2 = 1 →
      compute_checksum l = compute_checksum (l ++ [0])) ∧
    compute_checksum [0xFF, 0x00, 0x01, 0xFF, 0x48] = 0xB6FF := by
  refine ⟨fun l h => ?_, by decide⟩
  unfold compute_checksum
  rw [toWords_append_zero l h]

theorem checksum_odd_padding_witness :
    compute_checksum [0xFF, 0x00, 0x01, 0xFF, 0x48]
      = compute_checksum ([0xFF, 0x00, 0x01, 0xFF, 0x48] ++ [0]) :=
  checksum_odd_padding.1 [0xFF, 0x00, 0x01, 0xFF, 0x48] (by decide)

/-- C3: the reference IPv4 header (version 4, ihl 5, tos 0, total_length
20, identification 0xBEEF, no flags, ttl 64, protocol ICMP,
source = destination = 127.0.0.1, checksum field zeroed) has header
checksum 0xBDF7 over its 20 wire bytes. -/
theorem reference_header_checksum :
    compute_checksum (encode_ipv4_header reference_header) = 0xBDF7 := by
  decide

/-- C6: encapsulating the 4-byte ICMP header atop the reference IPv4
header changes total_length to 24 and the recomputed header checksum
(checksum field zeroed first) to a value different from 0xBDF7. -/
theorem encapsulation_changes_checksum :
    get_total_length (encode_ipv4_header reference_header_24) = 24 ∧
    compute_checksum (encode_ipv4_header reference_header_24) ≠ 0xBDF7 := by
  decide

/-- C7: the checksum function is total: the carry-fold loop reaches its
fixpoint for every accumulator value (any sufficient iteration bound gives
the same answer, and the result fits in 16 bits, so the loop guard is
false), and the zero-length input yields checksum 0xFFFF. -/
theorem checksum_total :
    (∀ s fuel fuel' : Nat, s ≤ fuel → s ≤ fuel' →
      fold_carries_aux fuel s = fold_carries_aux fuel' s) ∧
    (∀ s : Nat, fold_carries s ≤ 65535) ∧
    compute_checksum [] = 65535 :=
  ⟨fun s fuel fuel' h h' => fold_carries_aux_fuel fuel fuel' s h h',
   fold_carries_le, by decide⟩

theorem checksum_total_witness :
    fold_carries_aux 70000 65536 = fold_carries_aux 70001 65536 :=
  checksum_total.1 65536 70000 70001 (by decide) (by decide)

/-- C10: for buffers of even length, the checksum only depends on the
multiset of aligned 16-bit words: permuting whole words never changes the
result. -/
theorem checksum_word_permutation (l1 l2 : List Nat)
    (h1 : l1.length % 2 = 0) (h2 : l2.length % 2 = 0)
    (hp : (toWords l1).Perm (toWords l2)) :
    compute_checksum l1 = compute_checksum l2 := by
  unfold compute_checksum
  rw [sum32_eq, sum32_eq, hp.sum_eq]

theorem checksum_word_permutation_witness :
    compute_checksum [0xAB, 0x01, 0xCD, 0x02]
      = compute_checksum [0xCD, 0x02, 0xAB, 0x01] :=
  checksum_word_permutation [0xAB, 0x01, 0xCD, 0x02] [0xCD, 0x02, 0xAB, 0x01]
    (by decide) (by decide) (by decide)

/-- C4: the self-verification round trip of the one's-complement checksum:
for every buffer whose (aligned, in-bounds) 16-bit checksum field is
zeroed, computing the checksum, inserting it big-endian into that field
and recomputing over the same bytes yields 0x0000. -/
theorem checksum_self_verification (l : List Nat) (i : Nat)
    (hlen : 2 * i + 1 < l.length)
    (h0 : l.getD (2 * i) 0 = 0) (h1 : l.getD (2 * i + 1) 0 = 0) :
    compute_checksum
      ((l.set (2 * i) (compute_checksum l / 256)).set (2 * i + 1)
        (compute_checksum l % 256)) = 0 := by
  have hfle : fold_carries (sum32 (toWords l)) ≤ 65535 := fold_carries_le _
  have hfmod : fold_carries (sum32 (toWords l)) % 65535
      = sum32 (toWords l) % 65535 := fold_carries_mod _
  have hf0 : sum32 (toWords l) = 0 → fold_carries (sum32 (toWords l)) = 0 := by
    intro h
    rw [h]
    rfl
  have hfpos : 0 < sum32 (toWords l) → 0 < fold_carries (sum32 (toWords l)) :=
    fold_carries_pos _
  have hSlt : sum32 (toWords l) < 4294967296 := by
    rw [sum32_eq]
    exact Nat.mod_lt _ (by omega)
  have hc : compute_checksum l = 65535 - fold_carries (sum32 (toWords l)) := rfl
  have key := toWords_set_sum (compute_checksum l / 256) (compute_checksum l % 256)
    i l hlen h0 h1
  have hc16 : compute_checksum l / 256 * 256 + compute_checksum l % 256
      = compute_checksum l := by omega
  rw [hc16] at key
  have hsum : sum32 (toWords ((l.set (2 * i) (compute_checksum l / 256)).set
      (2 * i + 1) (compute_checksum l % 256)))
      = (sum32 (toWords l) + compute_checksum l) % 4294967296 := by
    rw [sum32_eq, key, ← Nat.mod_add_mod, ← sum32_eq]
  have hlt : sum32 (toWords l) + compute_checksum l < 4294967296 := by
    rw [hc]
    omega
  have goal_eq : compute_checksum
      ((l.set (2 * i) (compute_checksum l / 256)).set (2 * i + 1)
        (compute_checksum l % 256))
      = 65535 - fold_carries (sum32 (toWords ((l.set (2 * i)
          (compute_checksum l / 256)).set (2 * i + 1)
          (compute_checksum l % 256)))) := rfl
  rw [goal_eq, hsum, Nat.mod_eq_of_lt hlt]
  have h65 : fold_carries (sum32 (toWords l) + compute_checksum l) = 65535 := by
    apply fold_carries_eq_65535
    · rw [hc]
      omega
    · rw [hc]
      omega
  rw [h65]

theorem checksum_self_verification_witness :
    compute_checksum (([1, 2, 0, 0].set 2 (compute_checksum [1, 2, 0, 0] / 256)).set 3
      (compute_checksum [1, 2, 0, 0] % 256)) = 0 :=
  checksum_self_verification [1, 2, 0, 0] 1 (by decide) (by decide) (by decide)

lemma encode_set_checksum (h : ipv4_header) :
    ((encode_ipv4_header h).set 10 0).set 11 0
      = encode_ipv4_header { h with header_checksum := 0 } := by
  simp [encode_ipv4_header]

lemma icmp_set_checksum (ty code ck ident seq : Nat) (payload : List Nat) :
    ((encode_icmp_echo ty code ck ident seq payload).set 2 0).set 3 0
      = encode_icmp_echo ty code 0 ident seq payload := by
  simp [encode_icmp_echo, be16]

/-- C5: every datagram the builder produces satisfies the header
invariants: the header-length nibble is 5, the total_length field equals
20 plus the 8 + payload ICMP message length, the IPv4 header checksum
field holds exactly the checksum of the first 20 bytes with the checksum
field zeroed, the ICMP checksum field holds exactly the checksum of every
byte from offset 20 to the end with the ICMP checksum field zeroed, and
the HELLO Echo Request instance has total_length 33. -/
theorem builder_invariants (src dst ident seq : Nat) (payload : List Nat)
    (hlen : 20 + 4 + 4 + payload.length ≤ 65535) :
    get_header_length (build_echo_request src dst ident seq payload) = 5 ∧
    get_total_length (build_echo_request src dst ident seq payload)
      = 20 + (4 + 4 + payload.length) ∧
    get_header_checksum (build_echo_request src dst ident seq payload)
      = compute_checksum
          ((((build_echo_request src dst ident seq payload).take 20).set 10 0).set 11 0) ∧
    get_icmp_checksum (build_echo_request src dst ident seq payload)
      = compute_checksum
          ((((build_echo_request src dst ident seq payload).drop 20).set 2 0).set 3 0) ∧
    get_total_length (build_echo_request src dst 0x1234 0x0001 [72, 69, 76, 76, 79])
      = 33 := by
  refine ⟨?_, ?_, ?_, ?_, ?_⟩
  · have h1 : get_header_length (build_echo_request src dst ident seq payload)
        = pack_version_ihl 4 5 % 256 % 16 := rfl
    rw [h1]
    decide
  · have h2 : get_total_length (build_echo_request src dst ident seq payload)
        = (20 + 4 + 4 + payload.length) / 256 % 256 * 256
          + (20 + 4 + 4 + payload.length) % 256 := rfl
    rw [h2]
    omega
  · have t1 : (build_echo_request src dst ident seq payload).take 20
        = encode_ipv4_header (build_ip src dst payload.length) := rfl
    have t2 : encode_ipv4_header
          { build_ip src dst payload.length with header_checksum := 0 }
        = encode_ipv4_header (build_ip0 src dst payload.length) := rfl
    have e2 : get_header_checksum (build_echo_request src dst ident seq payload)
        = compute_checksum (encode_ipv4_header (build_ip0 src dst payload.length))
            / 256 % 256 * 256
          + compute_checksum (encode_ipv4_header (build_ip0 src dst payload.length))
            % 256 := rfl
    have e3 := compute_checksum_le (encode_ipv4_header (build_ip0 src dst payload.length))
    rw [t1, encode_set_checksum, t2, e2]
    omega
  · have t1 : (build_echo_request src dst ident seq payload).drop 20
        = encode_icmp_echo ECHO 0
            (compute_checksum (encode_icmp_echo ECHO 0 0 ident seq payload))
            ident seq payload := rfl
    have e2 : get_icmp_checksum (build_echo_request src dst ident seq payload)
        = compute_checksum (encode_icmp_echo ECHO 0 0 ident seq payload)
            / 256 % 256 * 256
          + compute_checksum (encode_icmp_echo ECHO 0 0 ident seq payload) % 256 := rfl
    have e3 := compute_checksum_le (encode_icmp_echo ECHO 0 0 ident seq payload)
    rw [t1, icmp_set_checksum, e2]
    omega
  · have h5 : get_total_length (build_echo_request src dst 0x1234 0x0001
        [72, 69, 76, 76, 79]) = 33 / 256 % 256 * 256 + 33 % 256 := rfl
    rw [h5]

theorem builder_invariants_witness :
    get_header_length (build_echo_request 0x7F000001 0x7F000001 0x1234 0x0001
      [72, 69, 76, 76, 79]) = 5 ∧
    get_total_length (build_echo_request 0x7F000001 0x7F000001 0x1234 0x0001
      [72, 69, 76, 76, 79]) = 20 + (4 + 4 + [72, 69, 76, 76, 79].length) ∧
    get_header_checksum (build_echo_request 0x7F000001 0x7F000001 0x1234 0x0001
      [72, 69, 76, 76, 79])
      = compute_checksum ((((build_echo_request 0x7F000001 0x7F000001 0x1234 0x0001
          [72, 69, 76, 76, 79]).take 20).set 10 0).set 11 0) ∧
    get_icmp_checksum (build_echo_request 0x7F000001 0x7F000001 0x1234 0x0001
      [72, 69, 76, 76, 79])
      = compute_checksum ((((build_echo_request 0x7F000001 0x7F000001 0x1234 0x0001
          [72, 69, 76, 76, 79]).drop 20).set 2 0).set 3 0) ∧
    get_total_length (build_echo_request 0x7F000001 0x7F000001 0x1234 0x0001
      [72, 69, 76, 76, 79]) = 33 :=
  builder_invariants 0x7F000001 0x7F000001 0x1234 0x0001 [72, 69, 76, 76, 79]
    (by decide)

/-- C8: the Transport Driver matching step discards any ICMP message of
type ECHO (the looped-back request), discards any EchoReply whose
identifier differs from the original request, discards any EchoReply
whose sequence differs from the original request (so it matches only when
both identifier and sequence equal the request's values), and on an
EchoReply carrying the request's identifier and sequence returns exactly
the trailing payload of length total_length - 28: the synthetic HELLO
reply matches with payload HELLO, while the same reply with a different
identifier, or with the right identifier but a different sequence, is
discarded. -/
theorem transport_matching (i s : Nat) :
    (∀ d : List Nat, 24 ≤ d.length → d.getD 9 0 = IP_PROTO_ICMP →
      d.getD 20 0 = ECHO → match_step i s d = .discard) ∧
    (∀ d : List Nat, d.getD 24 0 * 256 + d.getD 25 0 ≠ i →
      match_step i s d = .discard) ∧
    (∀ d : List Nat, d.getD 26 0 * 256 + d.getD 27 0 ≠ s →
      match_step i s d = .discard) ∧
    match_step 0x1234 0x0001 (synthetic_reply 0x1234 0x0001)
      = .matched [72, 69, 76, 76, 79] ∧
    match_step 0x1234 0x0001 (synthetic_reply 0x5678 0x0001) = .discard ∧
    match_step 0x1234 0x0001 (synthetic_reply 0x1234 0x0002) = .discard := by
  refine ⟨?_, ?_, ?_, by decide, by decide, by decide⟩
  · intro d h24 hproto hecho
    unfold match_step
    rw [if_neg (by omega),
      if_neg (show ¬d.getD 9 0 ≠ IP_PROTO_ICMP from fun h => h hproto),
      if_neg (by omega), if_pos hecho]
  · intro d hne
    unfold match_step
    split_ifs with h1 h2 h3 h4 h5 h6 h7 <;> try rfl
    exact absurd h7.1 hne
  · intro d hne
    unfold match_step
    split_ifs with h1 h2 h3 h4 h5 h6 h7 <;> try rfl
    exact absurd h7.2 hne

theorem transport_matching_witness :
    match_step 0x1234 0x0001 (build_echo_request 0x7F000001 0x7F000001 0x1234
      0x0001 [72, 69, 76, 76, 79]) = .discard ∧
    match_step 0x1234 0x0001 (synthetic_reply 0x4321 0x0001) = .discard ∧
    match_step 0x1234 0x0001 (synthetic_reply 0x1234 0x0777) = .discard :=
  ⟨(transport_matching 0x1234 0x0001).1
      (build_echo_request 0x7F000001 0x7F000001 0x1234 0x0001 [72, 69, 76, 76, 79])
      (by decide) (by decide) (by decide),
   (transport_matching 0x1234 0x0001).2.1 (synthetic_reply 0x4321 0x0001)
      (by decide),
   (transport_matching 0x1234 0x0001).2.2.1 (synthetic_reply 0x1234 0x0777)
      (by decide)⟩

/-- C9: decoding a buffer shorter than 20 bytes as an IPv4 header, or
shorter than 4 bytes as an ICMP header, fails with MalformedHeader; and
each decode depends only on the bytes inside the declared structure, so it
never reads past the buffer (decoding a buffer equals decoding its first
20, respectively 4, bytes). -/
theorem decode_short_buffer :
    (∀ l : List Nat, l.length < 20 →
      decode_ipv4_header l = .error .MalformedHeader) ∧
    (∀ l : List Nat, l.length < 4 →
      decode_icmp_header l = .error .MalformedHeader) ∧
    (∀ l : List Nat, decode_ipv4_header l = decode_ipv4_header (l.take 20)) ∧
    (∀ l : List Nat, decode_icmp_header l = decode_icmp_header (l.take 4)) := by
  refine ⟨?_, ?_, ?_, ?_⟩
  · intro l h
    unfold decode_ipv4_header
    rw [if_pos h]
  · intro l h
    unfold decode_icmp_header
    rw [if_pos h]
  · intro l
    unfold decode_ipv4_header
    have hg : ∀ i : Nat, i < 20 → (l.take 20).getD i 0 = l.getD i 0 :=
      fun i hi => getD_take l 20 i hi
    by_cases h : l.length < 20
    · rw [if_pos h, if_pos (by simp [List.length_take]; omega)]
    · rw [if_neg h, if_neg (by simp [List.length_take]; omega),
        hg 0 (by omega), hg 1 (by omega), hg 2 (by omega), hg 3 (by omega),
        hg 4 (by omega), hg 5 (by omega), hg 6 (by omega), hg 7 (by omega),
        hg 8 (by omega), hg 9 (by omega), hg 10 (by omega), hg 11 (by omega),
        hg 12 (by omega), hg 13 (by omega), hg 14 (by omega), hg 15 (by omega),
        hg 16 (by omega), hg 17 (by omega), hg 18 (by omega), hg 19 (by omega)]
  · intro l
    unfold decode_icmp_header
    have hg : ∀ i : Nat, i < 4 → (l.take 4).getD i 0 = l.getD i 0 :=
      fun i hi => getD_take l 4 i hi
    by_cases h : l.length < 4
    · rw [if_pos h, if_pos (by simp [List.length_take]; omega)]
    · rw [if_neg h, if_neg (by simp [List.length_take]; omega),
        hg 0 (by omega), hg 1 (by omega), hg 2 (by omega), hg 3 (by omega)]

theorem decode_short_buffer_witness :
    decode_ipv4_header [1, 2, 3] = .error .MalformedHeader ∧
    decode_icmp_header [1, 2, 3] = .error .MalformedHeader ∧
    decode_ipv4_header [1, 2, 3] = decode_ipv4_header ([1, 2, 3].take 20) :=
  ⟨decode_short_buffer.1 [1, 2, 3] (by decide),
   decode_short_buffer.2.1 [1, 2, 3] (by decide),
   decode_short_buffer.2.2.1 [1, 2, 3]⟩
